import Mathlib

/-!
Verification of the evergreen job-queue runtime core: the abortable worker
pool (pool package) and the queue management layer
(vendor/github.com/mongodb/amboy/management/queue.go), shallowly embedded in
Lean 4.

Modelling conventions:
- Go `time.Time` instants and `time.Duration` values are `Int` nanoseconds;
  `time.Since(t)` is `now - t` where `now` is an explicit parameter.
- Go maps keyed by strings are association lists (`List (String × α)`)
  updated in enumeration order; map iteration order in Go is unspecified, so
  properties stated about the rows are order-insensitive.
- The queue collaborator (external to the two components, see the spec) is a
  parameter: its `Get`/`Complete` outcomes are supplied as functions.
- Fallible Go functions returning `(T, error)` become `Except String T`;
  functions returning only `error` become `Option String` (`none` = nil).
-/

namespace Amboy

/-- `amboy.JobStatusInfo`: the status portion of a job-info snapshot. -/
structure JobStatusInfo where
  InProgress : Bool
  Completed : Bool
  ModificationTime : Int
  ErrorCount : Nat
  Errors : List String
deriving DecidableEq, Repr

/-- `amboy.JobTimeInfo`: the timing portion of a job-info snapshot. -/
structure JobTimeInfo where
  Created : Int
  Start : Int
  End : Int
deriving DecidableEq, Repr

/-- `amboy.JobRetryInfo`: the retry portion of a job-info snapshot. -/
structure JobRetryInfo where
  Retryable : Bool
  NeedsRetry : Bool
  CurrentAttempt : Nat
deriving DecidableEq, Repr

/-- `amboy.JobInfo`: a point-in-time read-only projection of a job.
`TypeName` is `info.Type.Name` in the source. -/
structure JobInfo where
  ID : String
  TypeName : String
  Status : JobStatusInfo
  Time : JobTimeInfo
  Retry : JobRetryInfo
deriving DecidableEq, Repr

/-- One nanosecond-denominated second, Go's `time.Second`. -/
def timeSecond : Int := 1000000000

/- Filters are string-valued tags in the source (management/filter.go). -/

abbrev StatusFilter := String
abbrev RuntimeFilter := String
abbrev ErrorFilter := String

def Pending : StatusFilter := "pending"
def InProgress : StatusFilter := "in-progress"
def Stale : StatusFilter := "stale"
def Completed : StatusFilter := "completed"
def Retrying : StatusFilter := "retrying"
def All : StatusFilter := "all"

def Duration : RuntimeFilter := "duration"
def Latency : RuntimeFilter := "latency"
def Running : RuntimeFilter := "running"

def UniqueErrors : ErrorFilter := "unique-errors"
def AllErrors : ErrorFilter := "all-errors"
def StatsOnly : ErrorFilter := "stats-only"

/-- Modelled from the spec: the filter source file (management/filter.go) is
not under src, only its test. Spec section 4.3: each filter type's Validate
checks membership in its fixed value set (case-sensitive, exact match) and
fails on any value outside it. `true` = valid (nil error). -/
def StatusFilterValidate (f : StatusFilter) : Bool :=
  f = Pending || f = InProgress || f = Stale || f = Completed || f = Retrying || f = All

/-- Modelled from the spec: see `StatusFilterValidate`. -/
def RuntimeFilterValidate (f : RuntimeFilter) : Bool :=
  f = Duration || f = Latency || f = Running

/-- Modelled from the spec: see `StatusFilterValidate`. -/
def ErrorFilterValidate (f : ErrorFilter) : Bool :=
  f = UniqueErrors || f = AllErrors || f = StatsOnly

/-- `queueManager.matchesStatusFilter` (management/queue.go:152-169).
`lockTimeout` is `m.queue.Info().LockTimeout`; `now - ModificationTime`
embeds `time.Since(info.Status.ModificationTime)`. -/
def matchesStatusFilter (lockTimeout now : Int) (info : JobInfo) (f : StatusFilter) : Bool :=
  if f = Pending then !info.Status.InProgress && !info.Status.Completed
  else if f = InProgress then info.Status.InProgress
  else if f = Stale then
    info.Status.InProgress && decide (now - info.Status.ModificationTime > lockTimeout)
  else if f = Completed then info.Status.Completed
  else if f = Retrying then info.Status.Completed && info.Retry.NeedsRetry
  else if f = All then true
  else false

/- Association-list helpers standing in for Go string-keyed maps. -/

/-- Lookup with a default, the zero value a Go map read yields for a missing
key. -/
def lookupOr {α : Type} (d : α) (k : String) : List (String × α) → α
  | [] => d
  | (k2, v) :: rest => if k2 = k then v else lookupOr d k rest

/-- Map store: overwrite the entry for `k` if present, append it otherwise. -/
def setKey {α : Type} (k : String) (v : α) : List (String × α) → List (String × α)
  | [] => [(k, v)]
  | (k2, w) :: rest => if k2 = k then (k, v) :: rest else (k2, w) :: setKey k v rest

/-- `management.JobCounters`: one row of a status report. -/
structure JobCounters where
  ID : String
  Count : Nat
deriving DecidableEq, Repr

/-- `management.JobStatusReport`. -/
structure JobStatusReport where
  Stats : List JobCounters
  Filter : StatusFilter
deriving DecidableEq, Repr

/-- The counting loop of `queueManager.JobStatus` (management/queue.go:35-41):
`counters[info.Type.Name]++` for each info matching the filter. -/
def JobStatusCounters (lockTimeout now : Int) (f : StatusFilter) :
    List JobInfo → List (String × Nat) → List (String × Nat)
  | [], acc => acc
  | info :: rest, acc =>
    if matchesStatusFilter lockTimeout now info f then
      JobStatusCounters lockTimeout now f rest
        (setKey info.TypeName (lookupOr 0 info.TypeName acc + 1) acc)
    else
      JobStatusCounters lockTimeout now f rest acc

/-- `queueManager.JobStatus` (management/queue.go:30-55). -/
def JobStatus (lockTimeout now : Int) (f : StatusFilter) (infos : List JobInfo) :
    Except String JobStatusReport :=
  if !StatusFilterValidate f then .error "invalid filter"
  else
    .ok { Stats := (JobStatusCounters lockTimeout now f infos []).map
            (fun kv => { ID := kv.1, Count := kv.2 }),
          Filter := f }

/-- A resolved job as the manager's mutation path handles it. -/
structure Job where
  id : String
deriving DecidableEq, Repr

/-- The queue collaborator as seen by `queueManager`'s mutation methods:
`get` is `m.queue.Get` (`none` = not found), `retryCapable` whether
`amboy.WithRetryableQueue` finds the retry extension, `getAttempt` and
`completeRetryingErr` that extension's operations, `completeErr` the error
of `m.queue.Complete` (`none` = nil). -/
structure ManagerQueue where
  get : String → Option Job
  retryCapable : Bool
  getAttempt : String → Nat → Except String Job
  completeErr : Job → Option String
  completeRetryingErr : Job → Option String

/-- `queueManager.getJob` (management/queue.go:319-341): a retryable info on
a retry-capable queue resolves through `GetAttempt`; otherwise standard
resolution by logical ID, failing when absent. -/
def getJob (q : ManagerQueue) (info : JobInfo) : Except String Job :=
  if info.Retry.Retryable && q.retryCapable then
    q.getAttempt info.ID info.Retry.CurrentAttempt
  else
    match q.get info.ID with
    | some j => .ok j
    | none => .error "could not find job"

/-- `queueManager.completeJob` (management/queue.go:383-394): `Complete` on
the queue, then, when the retry extension is present, `CompleteRetrying`;
either error is wrapped and returned. -/
def completeJob (q : ManagerQueue) (j : Job) : Option String :=
  match q.completeErr j with
  | some e => some ("completing job: " ++ e)
  | none =>
    match (if q.retryCapable then q.completeRetryingErr j else none) with
    | some e => some ("marking retryable job as complete: " ++ e)
    | none => none

/-- The enumeration loop of `queueManager.CompleteJobsByPattern`
(management/queue.go:434-451): for each info whose logical ID the compiled
regex matches and whose status satisfies the filter, resolve via `getJob`
and complete via `completeJob`, collecting per-job errors. Returns the
catcher's errors and the IDs of the jobs passed to `completeJob`. -/
def CompleteByPatternLoop (q : ManagerQueue) (rx : String → Bool)
    (lockTimeout now : Int) (f : StatusFilter) :
    List JobInfo → List String × List String
  | [] => ([], [])
  | info :: rest =>
    let r := CompleteByPatternLoop q rx lockTimeout now f rest
    if !rx info.ID then r
    else if !matchesStatusFilter lockTimeout now info f then r
    else
      match getJob q info with
      | .error e =>
        (("could not get job " ++ info.ID ++ " from info: " ++ e) :: r.1, r.2)
      | .ok j =>
        match completeJob q j with
        | some e => (("marking job " ++ j.id ++ " complete: " ++ e) :: r.1, j.id :: r.2)
        | none => (r.1, j.id :: r.2)

/-- `queueManager.CompleteJobsByPattern` (management/queue.go:424-454).
`compile` embeds `regexp.Compile`: `none` = syntactically invalid pattern,
`some rx` = the compiled matcher. Returns the aggregate error (`none` =
nil), the IDs completed, and whether the queue's enumeration was reached. -/
def CompleteJobsByPattern (q : ManagerQueue) (compile : String → Option (String → Bool))
    (lockTimeout now : Int) (f : StatusFilter) (pattern : String)
    (infos : List JobInfo) : Option (List String) × List String × Bool :=
  if !StatusFilterValidate f then (some ["invalid filter"], [], false)
  else
    match compile pattern with
    | none => (some ["invalid regexp"], [], false)
    | some rx =>
      let r := CompleteByPatternLoop q rx lockTimeout now f infos
      ((if r.1 = [] then none else some r.1), r.2, true)

/-- `management.JobRuntimes`: one row of a runtime report. -/
structure JobRuntimes where
  ID : String
  Duration : Int
deriving DecidableEq, Repr

/-- `management.JobRuntimeReport`. -/
structure JobRuntimeReport where
  Filter : RuntimeFilter
  Period : Int
  Stats : List JobRuntimes
deriving DecidableEq, Repr

/-- The bucketing loop of `queueManager.RecentTiming`
(management/queue.go:70-96): per job type, append the sample dictated by the
runtime filter, skipping non-matching infos; an unrecognized filter value
aborts with an error. -/
def RecentTimingCollect (now window : Int) (f : RuntimeFilter) :
    List JobInfo → List (String × List Int) → Except String (List (String × List Int))
  | [], acc => .ok acc
  | info :: rest, acc =>
    if f = Running then
      if !info.Status.InProgress then RecentTimingCollect now window f rest acc
      else RecentTimingCollect now window f rest
        (setKey info.TypeName
          (lookupOr [] info.TypeName acc ++ [now - info.Time.Start]) acc)
    else if f = Latency then
      if info.Status.Completed then RecentTimingCollect now window f rest acc
      else if now - info.Time.Created > window then RecentTimingCollect now window f rest acc
      else RecentTimingCollect now window f rest
        (setKey info.TypeName
          (lookupOr [] info.TypeName acc ++ [now - info.Time.Created]) acc)
    else if f = Duration then
      if !info.Status.Completed then RecentTimingCollect now window f rest acc
      else if now - info.Time.End > window then RecentTimingCollect now window f rest acc
      else RecentTimingCollect now window f rest
        (setKey info.TypeName
          (lookupOr [] info.TypeName acc ++ [info.Time.End - info.Time.Start]) acc)
    else .error "invalid job runtime filter"

/-- The inclusion condition of each `RecentTiming` case, as a predicate: an
info contributes a sample under `f` exactly when this is true. -/
def timingIncluded (now window : Int) (f : RuntimeFilter) (info : JobInfo) : Bool :=
  if f = Running then info.Status.InProgress
  else if f = Latency then
    !info.Status.Completed && !decide (now - info.Time.Created > window)
  else if f = Duration then
    info.Status.Completed && !decide (now - info.Time.End > window)
  else false

/-- `total / time.Duration(len(v))`: Go int64 division truncates toward
zero, which is `Int.tdiv`. -/
def intAvg (v : List Int) : Int :=
  Int.tdiv (v.foldl (fun a b => a + b) 0) (v.length : Int)

/-- `queueManager.RecentTiming` (management/queue.go:57-117). -/
def RecentTiming (now window : Int) (f : RuntimeFilter) (infos : List JobInfo) :
    Except String JobRuntimeReport :=
  if !RuntimeFilterValidate f then .error "invalid filter"
  else if window ≤ timeSecond then .error "must specify windows greater than one second"
  else
    match RecentTimingCollect now window f infos [] with
    | .error e => .error e
    | .ok counters =>
      .ok { Filter := f, Period := window,
            Stats := counters.map (fun kv => { ID := kv.1, Duration := intAvg kv.2 }) }

/-- `management.JobErrorsForType`: one row of an error report. The source
stores `Average` as `float64(v.Total / v.Count)`: the truncating integer
quotient widened to float64; the widening is value-preserving, so the row
carries the integer quotient itself. -/
structure JobErrorsForType where
  ID : String
  Count : Nat
  Total : Nat
  Average : Nat
  Errors : List String
deriving DecidableEq, Repr

/-- The zero value a Go map read yields for a missing `JobErrorsForType`. -/
def emptyJobErrors : JobErrorsForType :=
  { ID := "", Count := 0, Total := 0, Average := 0, Errors := [] }

/-- `management.JobErrorsReport`. -/
structure JobErrorsReport where
  Period : Int
  FilteredByType : Bool
  Data : List JobErrorsForType
deriving DecidableEq, Repr

/-- The per-info `switch f` of `RecentErrors`/`RecentJobErrors`
(management/queue.go:196-210 and 268-282): `AllErrors`/`UniqueErrors` bump
Count/Total and append all messages, `StatsOnly` bumps Count/Total only, any
other value errors out. -/
def errorStep (f : ErrorFilter) (info : JobInfo)
    (acc : List (String × JobErrorsForType)) :
    Except String (List (String × JobErrorsForType)) :=
  if f = AllErrors || f = UniqueErrors then
    let val := lookupOr emptyJobErrors info.TypeName acc
    .ok (setKey info.TypeName
      { val with Count := val.Count + 1,
                 Total := val.Total + info.Status.ErrorCount,
                 Errors := val.Errors ++ info.Status.Errors } acc)
  else if f = StatsOnly then
    let val := lookupOr emptyJobErrors info.TypeName acc
    .ok (setKey info.TypeName
      { val with Count := val.Count + 1,
                 Total := val.Total + info.Status.ErrorCount } acc)
  else .error "operation is not supported"

/-- The collection loop of `queueManager.RecentErrors`
(management/queue.go:183-211): keep completed infos with a non-zero error
count whose completion falls within the window. -/
def RecentErrorsCollect (now window : Int) (f : ErrorFilter) :
    List JobInfo → List (String × JobErrorsForType) →
    Except String (List (String × JobErrorsForType))
  | [], acc => .ok acc
  | info :: rest, acc =>
    if !info.Status.Completed then RecentErrorsCollect now window f rest acc
    else if info.Status.ErrorCount = 0 then RecentErrorsCollect now window f rest acc
    else if now - info.Time.End > window then RecentErrorsCollect now window f rest acc
    else
      match errorStep f info acc with
      | .error e => .error e
      | .ok acc2 => RecentErrorsCollect now window f rest acc2

/-- The collection loop of `queueManager.RecentJobErrors`
(management/queue.go:257-283): as `RecentErrorsCollect`, plus a job-type
equality check. -/
def RecentJobErrorsCollect (jobType : String) (now window : Int) (f : ErrorFilter) :
    List JobInfo → List (String × JobErrorsForType) →
    Except String (List (String × JobErrorsForType))
  | [], acc => .ok acc
  | info :: rest, acc =>
    if !info.Status.Completed || info.Status.ErrorCount = 0 then
      RecentJobErrorsCollect jobType now window f rest acc
    else if now - info.Time.End > window then
      RecentJobErrorsCollect jobType now window f rest acc
    else if info.TypeName ≠ jobType then
      RecentJobErrorsCollect jobType now window f rest acc
    else
      match errorStep f info acc with
      | .error e => .error e
      | .ok acc2 => RecentJobErrorsCollect jobType now window f rest acc2

/-- The `UniqueErrors` post-pass (management/queue.go:212-227): replace each
type's message list by its distinct members. Go collects the set in a map
and re-emits it in unspecified order; `List.dedup` is the deterministic
representative of that set. -/
def dedupErrors (c : List (String × JobErrorsForType)) :
    List (String × JobErrorsForType) :=
  c.map (fun kv => (kv.1, { kv.2 with Errors := kv.2.Errors.dedup }))

/-- The final loop of `RecentErrors`/`RecentJobErrors`
(management/queue.go:229-236, 301-308): stamp the ID and the truncating
average `Total / Count` on each row. -/
def finalizeErrorRows (c : List (String × JobErrorsForType)) : List JobErrorsForType :=
  c.map (fun kv => { kv.2 with ID := kv.1, Average := kv.2.Total / kv.2.Count })

/-- The `AllErrors`/`UniqueErrors` update applied to one collector value:
bump Count, add the info's error count to Total, append its messages. -/
def bumpAll (info : JobInfo) (v : JobErrorsForType) : JobErrorsForType :=
  { v with Count := v.Count + 1,
           Total := v.Total + info.Status.ErrorCount,
           Errors := v.Errors ++ info.Status.Errors }

/-- The `StatsOnly` update applied to one collector value: bump Count and
Total, leave the message list alone. -/
def bumpStats (info : JobInfo) (v : JobErrorsForType) : JobErrorsForType :=
  { v with Count := v.Count + 1,
           Total := v.Total + info.Status.ErrorCount }

/-- Forget a collector value's message list. -/
def stripE (v : JobErrorsForType) : JobErrorsForType :=
  { v with Errors := [] }

/-- Forget every message list in a collector. -/
def stripC (c : List (String × JobErrorsForType)) : List (String × JobErrorsForType) :=
  c.map (fun kv => (kv.1, stripE kv.2))

/-- `queueManager.RecentErrors` (management/queue.go:171-243). -/
def RecentErrors (now window : Int) (f : ErrorFilter) (infos : List JobInfo) :
    Except String JobErrorsReport :=
  if !ErrorFilterValidate f then .error "invalid filter"
  else if window ≤ timeSecond then .error "must specify windows greater than one second"
  else
    match RecentErrorsCollect now window f infos [] with
    | .error e => .error e
    | .ok c =>
      let c2 := if f = UniqueErrors then dedupErrors c else c
      .ok { Period := window, FilteredByType := false, Data := finalizeErrorRows c2 }

/-- `queueManager.RecentJobErrors` (management/queue.go:245-315). -/
def RecentJobErrors (jobType : String) (now window : Int) (f : ErrorFilter)
    (infos : List JobInfo) : Except String JobErrorsReport :=
  if !ErrorFilterValidate f then .error "invalid filter"
  else if window ≤ timeSecond then .error "must specify windows greater than one second"
  else
    match RecentJobErrorsCollect jobType now window f infos [] with
    | .error e => .error e
    | .ok c =>
      let c2 := if f = UniqueErrors then dedupErrors c else c
      .ok { Period := window, FilteredByType := true, Data := finalizeErrorRows c2 }

end Amboy

namespace Pool

open Amboy

/-- The queue collaborator as seen by `abortablePool` in the pool package:
`found id` is the boolean of `p.queue.Get(ctx, id)`, `completeErr id` the
error of `p.queue.Complete(ctx, job)` on the job fetched for `id` (`none` =
nil). -/
structure PoolQueue where
  found : String → Bool
  completeErr : String → Option String

/-- The pool state the claims observe: `jobs` is the running-job table (the
key set of `p.jobs`, unique since it is a Go map), `canceled` records every
cancellation handle that has been invoked. -/
structure PoolState where
  jobs : List String
  canceled : List String

/-- One call against the queue collaborator, recorded in order. -/
inductive QueueCall
  | get : String → QueueCall
  | complete : String → QueueCall
deriving DecidableEq, Repr

/-- `abortablePool.IsRunning` (part_000:197-203). -/
def IsRunning (st : PoolState) (id : String) : Bool :=
  st.jobs.contains id

/-- `abortablePool.Abort` (part_000:218-235): returns the error (`none` =
nil), the post state, and the queue calls made, in order. Missing ID: fail
before touching anything. Present ID: cancel and delete the entry, then
`Get`; not found fails, otherwise `Complete` whose error is wrapped. -/
def Abort (q : PoolQueue) (st : PoolState) (id : String) :
    Option String × PoolState × List QueueCall :=
  if st.jobs.contains id then
    let st1 : PoolState := { jobs := st.jobs.erase id, canceled := id :: st.canceled }
    if q.found id then
      match q.completeErr id with
      | some e => (some ("marking job complete: " ++ e), st1,
                   [QueueCall.get id, QueueCall.complete id])
      | none => (none, st1, [QueueCall.get id, QueueCall.complete id])
    else
      (some ("could not find " ++ id ++ " in the queue"), st1, [QueueCall.get id])
  else
    (some ("job " ++ id ++ " is not defined"), st, [])

/-- The loop of `abortablePool.AbortAll` (part_000:242-254) over the table's
key list: returns the catcher's collected errors and the keys left in the
table. `ctxErr` is `ctx.Err()` (`none` while the context is live): when set,
record it and break, leaving the remaining entries. A cancelled-and-deleted
entry whose job the queue does not find is skipped silently (`continue`);
only a non-nil `Complete` error is added. -/
def AbortAllLoop (q : PoolQueue) (ctxErr : Option String) :
    List String → List String × List String
  | [] => ([], [])
  | id :: rest =>
    match ctxErr with
    | some e => ([e], id :: rest)
    | none =>
      let r := AbortAllLoop q ctxErr rest
      if q.found id then
        match q.completeErr id with
        | some e => (("marking job " ++ id ++ " complete: " ++ e) :: r.1, r.2)
        | none => r
      else r

/-- `abortablePool.AbortAll` (part_000:237-257): `catcher.Resolve()` is nil
exactly when no error was collected. -/
def AbortAll (q : PoolQueue) (ctxErr : Option String) (st : PoolState) :
    Option (List String) × PoolState :=
  let r := AbortAllLoop q ctxErr st.jobs
  ((if r.1 = [] then none else some r.1),
   { jobs := r.2, canceled := (st.jobs.filter (fun id => !r.2.contains id)) ++ st.canceled })

/-- A job as the worker's defer handler sees it: its ID and accumulated
error records (`job.AddError` appends). -/
structure JobModel where
  id : String
  errors : List String
deriving DecidableEq, Repr

/-- `recovery.HandlePanicWithError(recover(), nil, "worker process
encountered error")`: nil recovery yields a nil error, a panic value is
converted into a non-nil error carrying the message. -/
def HandlePanicWithError (recovered : Option String) : Option String :=
  recovered.map (fun m => "worker process encountered error: " ++ m)

/-- What the deferred recovery block of `abortablePool.worker`
(part_000:132-152) did: the error list now on the job, whether
`queue.Complete` was attempted on it, and whether `go p.worker(bctx)` was
launched. -/
structure DeferOutcome where
  jobErrors : List String
  completeAttempted : Bool
  replacementSpawned : Bool
deriving DecidableEq, Repr

/-- The deferred recovery block of `abortablePool.worker` (part_000:132-152):
on a non-nil recovered error, attach it to the job and best-effort complete
the job when the job is known, and always launch a replacement worker. -/
def workerDeferHandler (recovered : Option String) (job : Option JobModel) : DeferOutcome :=
  match HandlePanicWithError recovered with
  | some errMsg =>
    match job with
    | some j =>
      { jobErrors := j.errors ++ [errMsg], completeAttempted := true,
        replacementSpawned := true }
    | none =>
      { jobErrors := [], completeAttempted := false, replacementSpawned := true }
  | none =>
    { jobErrors := (match job with | some j => j.errors | none => []),
      completeAttempted := false, replacementSpawned := false }

/-- Worker-count bookkeeping for one loop exit: the exiting loop leaves
(`p.wg.Done`), and its deferred block may have spawned a replacement
(`go p.worker(bctx)`). -/
def activeAfterWorkerExit (n : Nat) (o : DeferOutcome) : Nat :=
  n - 1 + (if o.replacementSpawned then 1 else 0)

/-- If every `Complete` call returns nil, the `AbortAll` loop collects no
error and empties the table, whatever `Get` finds: a not-found job is
skipped silently. -/
lemma abortAllLoop_no_complete_err (q : PoolQueue)
    (hc : ∀ id, q.completeErr id = none) :
    ∀ l : List String, AbortAllLoop q none l = ([], []) := by
  intro l
  induction l with
  | nil => rfl
  | cons id rest ih =>
    unfold AbortAllLoop
    rw [ih]
    by_cases hf : q.found id = true
    · simp [hf, hc id]
    · simp [hf]

end Pool

namespace Amboy

/-- A `setKey` result's entries: the stored pair or an original entry. -/
lemma mem_setKey {α : Type} (k : String) (v : α) :
    ∀ (c : List (String × α)) (kv : String × α),
      kv ∈ setKey k v c → kv = (k, v) ∨ kv ∈ c := by
  intro c
  induction c with
  | nil =>
    intro kv h
    simp only [setKey, List.mem_singleton] at h
    exact Or.inl h
  | cons hd tl ih =>
    obtain ⟨k2, w⟩ := hd
    intro kv h
    simp only [setKey] at h
    by_cases hk : k2 = k
    · rw [if_pos hk] at h
      rcases List.mem_cons.mp h with h1 | h1
      · exact Or.inl h1
      · exact Or.inr (List.mem_cons.mpr (Or.inr h1))
    · rw [if_neg hk] at h
      rcases List.mem_cons.mp h with h1 | h1
      · exact Or.inr (by simp [h1])
      · rcases ih kv h1 with h2 | h2
        · exact Or.inl h2
        · exact Or.inr (by simp [h2])

/-- Looking a key up after forgetting message lists forgets the looked-up
value's message list. -/
lemma lookupOr_stripC (k : String) :
    ∀ c, lookupOr emptyJobErrors k (stripC c) = stripE (lookupOr emptyJobErrors k c) := by
  intro c
  induction c with
  | nil => rfl
  | cons hd tl ih =>
    obtain ⟨k2, w⟩ := hd
    simp only [stripC, List.map_cons, lookupOr]
    by_cases hk : k2 = k
    · rw [if_pos hk, if_pos hk]
    · rw [if_neg hk, if_neg hk]
      simpa [stripC] using ih

/-- `setKey` commutes with forgetting message lists. -/
lemma setKey_stripC (k : String) (v : JobErrorsForType) :
    ∀ c, stripC (setKey k v c) = setKey k (stripE v) (stripC c) := by
  intro c
  induction c with
  | nil => rfl
  | cons hd tl ih =>
    obtain ⟨k2, w⟩ := hd
    simp only [setKey, stripC, List.map_cons]
    by_cases hk : k2 = k
    · rw [if_pos hk, if_pos hk]
      simp [stripC]
    · rw [if_neg hk, if_neg hk]
      simpa [stripC] using ih

/-- The `StatsOnly` update on a stripped value is the stripped `AllErrors`
update. -/
lemma bumpStats_stripE (info : JobInfo) (v : JobErrorsForType) :
    bumpStats info (stripE v) = stripE (bumpAll info v) := rfl

/-- `errorStep` at `AllErrors`, in closed form. -/
lemma errorStep_allErrors (info : JobInfo) (acc : List (String × JobErrorsForType)) :
    errorStep AllErrors info acc =
      .ok (setKey info.TypeName
        (bumpAll info (lookupOr emptyJobErrors info.TypeName acc)) acc) := rfl

/-- `errorStep` at `UniqueErrors`, in closed form. -/
lemma errorStep_uniqueErrors (info : JobInfo) (acc : List (String × JobErrorsForType)) :
    errorStep UniqueErrors info acc =
      .ok (setKey info.TypeName
        (bumpAll info (lookupOr emptyJobErrors info.TypeName acc)) acc) := rfl

/-- `errorStep` at `StatsOnly`, in closed form. -/
lemma errorStep_statsOnly (info : JobInfo) (acc : List (String × JobErrorsForType)) :
    errorStep StatsOnly info acc =
      .ok (setKey info.TypeName
        (bumpStats info (lookupOr emptyJobErrors info.TypeName acc)) acc) := rfl

/-- A `RecentErrors` collection step that skips the info. -/
lemma recentErrorsCollect_cons_skip (now window : Int) (f : ErrorFilter)
    (info : JobInfo) (rest : List JobInfo) (acc : List (String × JobErrorsForType))
    (h : info.Status.Completed = false ∨ info.Status.ErrorCount = 0 ∨
         now - info.Time.End > window) :
    RecentErrorsCollect now window f (info :: rest) acc =
      RecentErrorsCollect now window f rest acc := by
  simp only [RecentErrorsCollect]
  rcases h with h | h | h
  · rw [if_pos (by simp [h])]
  · cases hq : info.Status.Completed
    · rw [if_pos (by simp [hq])]
    · rw [if_neg (by simp [hq]), if_pos h]
  · cases hq : info.Status.Completed
    · rw [if_pos (by simp [hq])]
    · rw [if_neg (by simp [hq])]
      by_cases h2 : info.Status.ErrorCount = 0
      · rw [if_pos h2]
      · rw [if_neg h2, if_pos h]

/-- A `RecentErrors` collection step that keeps the info and applies
`errorStep`. -/
lemma recentErrorsCollect_cons_step (now window : Int) (f : ErrorFilter)
    (info : JobInfo) (rest : List JobInfo)
    (acc acc2 : List (String × JobErrorsForType))
    (hstep : errorStep f info acc = .ok acc2)
    (h1 : info.Status.Completed = true) (h2 : ¬ info.Status.ErrorCount = 0)
    (h3 : ¬ now - info.Time.End > window) :
    RecentErrorsCollect now window f (info :: rest) acc =
      RecentErrorsCollect now window f rest acc2 := by
  simp only [RecentErrorsCollect]
  rw [h1, if_neg (by decide : ¬ ((!true) = true)), if_neg h2, if_neg h3, hstep]

/-- A `RecentJobErrors` collection step that skips the info. -/
lemma recentJobErrorsCollect_cons_skip (jobType : String) (now window : Int)
    (f : ErrorFilter) (info : JobInfo) (rest : List JobInfo)
    (acc : List (String × JobErrorsForType))
    (h : info.Status.Completed = false ∨ info.Status.ErrorCount = 0 ∨
         now - info.Time.End > window ∨ info.TypeName ≠ jobType) :
    RecentJobErrorsCollect jobType now window f (info :: rest) acc =
      RecentJobErrorsCollect jobType now window f rest acc := by
  simp only [RecentJobErrorsCollect]
  rcases h with h | h | h | h
  · rw [if_pos (by simp [h])]
  · rw [if_pos (by simp [h])]
  · cases hq : info.Status.Completed
    · rw [if_pos (by simp [hq])]
    · by_cases h2 : info.Status.ErrorCount = 0
      · rw [if_pos (by simp [h2])]
      · rw [if_neg (by simp [hq, h2]), if_pos h]
  · cases hq : info.Status.Completed
    · rw [if_pos (by simp [hq])]
    · by_cases h2 : info.Status.ErrorCount = 0
      · rw [if_pos (by simp [h2])]
      · rw [if_neg (by simp [hq, h2])]
        by_cases h3 : now - info.Time.End > window
        · rw [if_pos h3]
        · rw [if_neg h3, if_pos h]

/-- A `RecentJobErrors` collection step that keeps the info. -/
lemma recentJobErrorsCollect_cons_step (jobType : String) (now window : Int)
    (f : ErrorFilter) (info : JobInfo) (rest : List JobInfo)
    (acc acc2 : List (String × JobErrorsForType))
    (hstep : errorStep f info acc = .ok acc2)
    (h1 : info.Status.Completed = true) (h2 : ¬ info.Status.ErrorCount = 0)
    (h3 : ¬ now - info.Time.End > window) (h4 : info.TypeName = jobType) :
    RecentJobErrorsCollect jobType now window f (info :: rest) acc =
      RecentJobErrorsCollect jobType now window f rest acc2 := by
  simp only [RecentJobErrorsCollect]
  rw [if_neg (by simp [h1, h2]), if_neg h3, if_neg (by simp [h4]), hstep]

/-- Collecting under `StatsOnly` is collecting under `AllErrors` with every
message list forgotten: Count and Total agree pointwise and `StatsOnly`
accumulates no messages. -/
lemma recentErrorsCollect_statsOnly_strip (now window : Int) :
    ∀ (infos : List JobInfo) (acc : List (String × JobErrorsForType)),
      RecentErrorsCollect now window StatsOnly infos (stripC acc) =
        Except.map stripC (RecentErrorsCollect now window AllErrors infos acc) := by
  intro infos
  induction infos with
  | nil => intro acc; rfl
  | cons info rest ih =>
    intro acc
    by_cases h1 : info.Status.Completed = true
    · by_cases h2 : info.Status.ErrorCount = 0
      · rw [recentErrorsCollect_cons_skip now window StatsOnly info rest _
              (Or.inr (Or.inl h2)),
            recentErrorsCollect_cons_skip now window AllErrors info rest _
              (Or.inr (Or.inl h2))]
        exact ih acc
      · by_cases h3 : now - info.Time.End > window
        · rw [recentErrorsCollect_cons_skip now window StatsOnly info rest _
                (Or.inr (Or.inr h3)),
              recentErrorsCollect_cons_skip now window AllErrors info rest _
                (Or.inr (Or.inr h3))]
          exact ih acc
        · rw [recentErrorsCollect_cons_step now window StatsOnly info rest _ _
                (errorStep_statsOnly info (stripC acc)) h1 h2 h3,
              recentErrorsCollect_cons_step now window AllErrors info rest _ _
                (errorStep_allErrors info acc) h1 h2 h3]
          rw [show setKey info.TypeName
                (bumpStats info (lookupOr emptyJobErrors info.TypeName (stripC acc)))
                (stripC acc) =
              stripC (setKey info.TypeName
                (bumpAll info (lookupOr emptyJobErrors info.TypeName acc)) acc) from by
            rw [lookupOr_stripC, bumpStats_stripE, setKey_stripC]]
          exact ih _
    · have h1f : info.Status.Completed = false := by
        cases hq : info.Status.Completed
        · rfl
        · exact absurd hq h1
      rw [recentErrorsCollect_cons_skip now window StatsOnly info rest _ (Or.inl h1f),
          recentErrorsCollect_cons_skip now window AllErrors info rest _ (Or.inl h1f)]
      exact ih acc

/-- For a valid error filter the `RecentErrors` collection loop never errors,
and every collector row it produces has been bumped at least once: Count is
at least one. -/
lemma recentErrorsCollect_ok_counts (now window : Int) (f : ErrorFilter)
    (hf : ErrorFilterValidate f = true) :
    ∀ (infos : List JobInfo) (acc : List (String × JobErrorsForType)),
      (∀ kv ∈ acc, 1 ≤ kv.2.Count) →
      ∃ c, RecentErrorsCollect now window f infos acc = .ok c ∧
        ∀ kv ∈ c, 1 ≤ kv.2.Count := by
  have hval : f = UniqueErrors ∨ f = AllErrors ∨ f = StatsOnly := by
    rcases Bool.or_eq_true_iff.mp hf with h1 | h2
    · rcases Bool.or_eq_true_iff.mp h1 with h3 | h4
      · exact Or.inl (by simpa using h3)
      · exact Or.inr (Or.inl (by simpa using h4))
    · exact Or.inr (Or.inr (by simpa using h2))
  intro infos
  induction infos with
  | nil => intro acc hP; exact ⟨acc, rfl, hP⟩
  | cons info rest ih =>
    intro acc hP
    by_cases h1 : info.Status.Completed = true
    · by_cases h2 : info.Status.ErrorCount = 0
      · rw [recentErrorsCollect_cons_skip now window f info rest acc
              (Or.inr (Or.inl h2))]
        exact ih acc hP
      · by_cases h3 : now - info.Time.End > window
        · rw [recentErrorsCollect_cons_skip now window f info rest acc
                (Or.inr (Or.inr h3))]
          exact ih acc hP
        · have hbump : ∀ v : JobErrorsForType,
              (∀ kv ∈ acc, 1 ≤ kv.2.Count) → 1 ≤ v.Count + 1 := by
            intro v _
            omega
          rcases hval with hf2 | hf2 | hf2 <;> subst hf2
          · rw [recentErrorsCollect_cons_step now window UniqueErrors info rest _ _
                  (errorStep_uniqueErrors info acc) h1 h2 h3]
            refine ih _ ?_
            intro kv hkv
            rcases mem_setKey _ _ _ _ hkv with hkv2 | hkv2
            · subst hkv2
              simp [bumpAll]
            · exact hP kv hkv2
          · rw [recentErrorsCollect_cons_step now window AllErrors info rest _ _
                  (errorStep_allErrors info acc) h1 h2 h3]
            refine ih _ ?_
            intro kv hkv
            rcases mem_setKey _ _ _ _ hkv with hkv2 | hkv2
            · subst hkv2
              simp [bumpAll]
            · exact hP kv hkv2
          · rw [recentErrorsCollect_cons_step now window StatsOnly info rest _ _
                  (errorStep_statsOnly info acc) h1 h2 h3]
            refine ih _ ?_
            intro kv hkv
            rcases mem_setKey _ _ _ _ hkv with hkv2 | hkv2
            · subst hkv2
              simp [bumpStats]
            · exact hP kv hkv2
    · have h1f : info.Status.Completed = false := by
        cases hq : info.Status.Completed
        · rfl
        · exact absurd hq h1
      rw [recentErrorsCollect_cons_skip now window f info rest acc (Or.inl h1f)]
      exact ih acc hP

/-- For a valid error filter the `RecentJobErrors` collection loop never
errors, and every collector row has Count at least one. -/
lemma recentJobErrorsCollect_ok_counts (jobType : String) (now window : Int)
    (f : ErrorFilter) (hf : ErrorFilterValidate f = true) :
    ∀ (infos : List JobInfo) (acc : List (String × JobErrorsForType)),
      (∀ kv ∈ acc, 1 ≤ kv.2.Count) →
      ∃ c, RecentJobErrorsCollect jobType now window f infos acc = .ok c ∧
        ∀ kv ∈ c, 1 ≤ kv.2.Count := by
  have hval : f = UniqueErrors ∨ f = AllErrors ∨ f = StatsOnly := by
    rcases Bool.or_eq_true_iff.mp hf with h1 | h2
    · rcases Bool.or_eq_true_iff.mp h1 with h3 | h4
      · exact Or.inl (by simpa using h3)
      · exact Or.inr (Or.inl (by simpa using h4))
    · exact Or.inr (Or.inr (by simpa using h2))
  intro infos
  induction infos with
  | nil => intro acc hP; exact ⟨acc, rfl, hP⟩
  | cons info rest ih =>
    intro acc hP
    by_cases h1 : info.Status.Completed = true
    · by_cases h2 : info.Status.ErrorCount = 0
      · rw [recentJobErrorsCollect_cons_skip jobType now window f info rest acc
              (Or.inr (Or.inl h2))]
        exact ih acc hP
      · by_cases h3 : now - info.Time.End > window
        · rw [recentJobErrorsCollect_cons_skip jobType now window f info rest acc
                (Or.inr (Or.inr (Or.inl h3)))]
          exact ih acc hP
        · by_cases h4 : info.TypeName = jobType
          · rcases hval with hf2 | hf2 | hf2 <;> subst hf2
            · rw [recentJobErrorsCollect_cons_step jobType now window UniqueErrors
                    info rest _ _ (errorStep_uniqueErrors info acc) h1 h2 h3 h4]
              refine ih _ ?_
              intro kv hkv
              rcases mem_setKey _ _ _ _ hkv with hkv2 | hkv2
              · subst hkv2
                simp [bumpAll]
              · exact hP kv hkv2
            · rw [recentJobErrorsCollect_cons_step jobType now window AllErrors
                    info rest _ _ (errorStep_allErrors info acc) h1 h2 h3 h4]
              refine ih _ ?_
              intro kv hkv
              rcases mem_setKey _ _ _ _ hkv with hkv2 | hkv2
              · subst hkv2
                simp [bumpAll]
              · exact hP kv hkv2
            · rw [recentJobErrorsCollect_cons_step jobType now window StatsOnly
                    info rest _ _ (errorStep_statsOnly info acc) h1 h2 h3 h4]
              refine ih _ ?_
              intro kv hkv
              rcases mem_setKey _ _ _ _ hkv with hkv2 | hkv2
              · subst hkv2
                simp [bumpStats]
              · exact hP kv hkv2
          · rw [recentJobErrorsCollect_cons_skip jobType now window f info rest acc
                  (Or.inr (Or.inr (Or.inr h4)))]
            exact ih acc hP
    · have h1f : info.Status.Completed = false := by
        cases hq : info.Status.Completed
        · rfl
        · exact absurd hq h1
      rw [recentJobErrorsCollect_cons_skip jobType now window f info rest acc
            (Or.inl h1f)]
      exact ih acc hP

/-- The report `RecentErrors` returns once validation, the window check,
and the collection loop have gone through. -/
lemma recentErrors_ok_shape (now window : Int) (f : ErrorFilter) (infos : List JobInfo)
    (hv : ErrorFilterValidate f = true) (hw : ¬ window ≤ timeSecond)
    (c : List (String × JobErrorsForType))
    (hc : RecentErrorsCollect now window f infos [] = .ok c) :
    RecentErrors now window f infos =
      .ok { Period := window, FilteredByType := false,
            Data := finalizeErrorRows (if f = UniqueErrors then dedupErrors c else c) } := by
  unfold RecentErrors
  rw [if_neg (by simp [hv]), if_neg hw, hc]

/-- The report `RecentJobErrors` returns once validation, the window check,
and the collection loop have gone through. -/
lemma recentJobErrors_ok_shape (jobType : String) (now window : Int) (f : ErrorFilter)
    (infos : List JobInfo)
    (hv : ErrorFilterValidate f = true) (hw : ¬ window ≤ timeSecond)
    (c : List (String × JobErrorsForType))
    (hc : RecentJobErrorsCollect jobType now window f infos [] = .ok c) :
    RecentJobErrors jobType now window f infos =
      .ok { Period := window, FilteredByType := true,
            Data := finalizeErrorRows (if f = UniqueErrors then dedupErrors c else c) } := by
  unfold RecentJobErrors
  rw [if_neg (by simp [hv]), if_neg hw, hc]

/-- Deduplicating message lists does not change any row's Count. -/
lemma dedupErrors_counts (c : List (String × JobErrorsForType))
    (hP : ∀ kv ∈ c, 1 ≤ kv.2.Count) :
    ∀ kv ∈ dedupErrors c, 1 ≤ kv.2.Count := by
  intro kv hkv
  obtain ⟨kv0, h0, rfl⟩ := List.mem_map.mp hkv
  exact hP kv0 h0

/-- Every finalized row whose collector value was bumped at least once
carries the truncating average `Total / Count`: the remainder is discarded,
never rounded up. -/
lemma finalizeErrorRows_avg (c2 : List (String × JobErrorsForType))
    (hP : ∀ kv ∈ c2, 1 ≤ kv.2.Count) :
    ∀ row ∈ finalizeErrorRows c2,
      1 ≤ row.Count ∧ row.Average = row.Total / row.Count ∧
      row.Average * row.Count ≤ row.Total ∧
      row.Total < row.Average * row.Count + row.Count := by
  intro row hrow
  obtain ⟨kv, hkv, rfl⟩ := List.mem_map.mp hrow
  have hcount := hP kv hkv
  refine ⟨hcount, rfl, Nat.div_mul_le_self _ _, ?_⟩
  have hmlt : kv.2.Total % kv.2.Count < kv.2.Count := Nat.mod_lt _ (by omega)
  calc kv.2.Total
      = kv.2.Count * (kv.2.Total / kv.2.Count) + kv.2.Total % kv.2.Count :=
        (Nat.div_add_mod _ _).symm
    _ < kv.2.Count * (kv.2.Total / kv.2.Count) + kv.2.Count :=
        Nat.add_lt_add_left hmlt _
    _ = kv.2.Total / kv.2.Count * kv.2.Count + kv.2.Count := by
        rw [Nat.mul_comm]

/-- When resolution always succeeds (yielding the job with the info's
logical ID) and completion always succeeds, the `CompleteJobsByPattern`
loop collects no error and completes exactly the infos that match both the
regex and the status filter, in enumeration order. -/
lemma completeByPatternLoop_all_ok (q : ManagerQueue) (rx : String → Bool)
    (lockTimeout now : Int) (f : StatusFilter) :
    ∀ infos : List JobInfo,
      (∀ info ∈ infos, getJob q info = .ok { id := info.ID }) →
      (∀ j, completeJob q j = none) →
      CompleteByPatternLoop q rx lockTimeout now f infos =
        ([], (infos.filter
          (fun i => rx i.ID && matchesStatusFilter lockTimeout now i f)).map JobInfo.ID) := by
  intro infos
  induction infos with
  | nil => intro _ _; rfl
  | cons info rest ih =>
    intro hget hcomp
    have hrest := ih (fun i hi => hget i (by simp [hi])) hcomp
    simp only [CompleteByPatternLoop]
    rw [hrest]
    by_cases hrx : rx info.ID = true
    · by_cases hm : matchesStatusFilter lockTimeout now info f = true
      · rw [hget info (by simp)]
        simp [hrx, hm, hcomp]
      · have hm2 : matchesStatusFilter lockTimeout now info f = false := by
          cases hq : matchesStatusFilter lockTimeout now info f
          · rfl
          · exact absurd hq hm
        simp [hrx, hm2]
    · have hrx2 : rx info.ID = false := by
        cases hq : rx info.ID
        · rfl
        · exact absurd hq hrx
      simp [hrx2]

end Amboy

namespace Claims

open Amboy Pool

/-- C1 (counterexample): a job-info snapshot that is in-progress with a
last modification 100ns ago against a 10ns lock timeout matches the `Stale`
filter but ALSO matches the `InProgress` filter, and `JobStatus` counts it
under `InProgress` — refuting "is not counted under the InProgress
filter". -/
theorem C1_counterexample :
    (matchesStatusFilter 10 100
      { ID := "j1", TypeName := "t",
        Status := { InProgress := true, Completed := false, ModificationTime := 0,
                    ErrorCount := 0, Errors := [] },
        Time := { Created := 0, Start := 0, End := 0 },
        Retry := { Retryable := false, NeedsRetry := false, CurrentAttempt := 0 } }
      Stale = true) ∧
    (matchesStatusFilter 10 100
      { ID := "j1", TypeName := "t",
        Status := { InProgress := true, Completed := false, ModificationTime := 0,
                    ErrorCount := 0, Errors := [] },
        Time := { Created := 0, Start := 0, End := 0 },
        Retry := { Retryable := false, NeedsRetry := false, CurrentAttempt := 0 } }
      InProgress = true) ∧
    (JobStatus 10 100 InProgress
      [{ ID := "j1", TypeName := "t",
         Status := { InProgress := true, Completed := false, ModificationTime := 0,
                     ErrorCount := 0, Errors := [] },
         Time := { Created := 0, Start := 0, End := 0 },
         Retry := { Retryable := false, NeedsRetry := false, CurrentAttempt := 0 } }] =
      .ok { Stats := [{ ID := "t", Count := 1 }], Filter := InProgress }) := by
  refine ⟨by decide, by decide, ?_⟩
  rfl

/-- C1 (amended): an in-progress job-info snapshot whose last modification
is older than the queue's lock timeout is classified `Stale` and is also
still classified `InProgress`: `JobStatus` counts it under both filters. -/
theorem C1_stale_job_matches_stale_and_inprogress (lockTimeout now : Int) (info : JobInfo)
    (h1 : info.Status.InProgress = true)
    (h2 : now - info.Status.ModificationTime > lockTimeout) :
    matchesStatusFilter lockTimeout now info Stale = true ∧
    matchesStatusFilter lockTimeout now info InProgress = true ∧
    JobStatus lockTimeout now Stale [info] =
      .ok { Stats := [{ ID := info.TypeName, Count := 1 }], Filter := Stale } ∧
    JobStatus lockTimeout now InProgress [info] =
      .ok { Stats := [{ ID := info.TypeName, Count := 1 }], Filter := InProgress } := by
  have hs : matchesStatusFilter lockTimeout now info Stale = true := by
    simp [matchesStatusFilter, Stale, Pending, InProgress, h1, h2]
  have hi : matchesStatusFilter lockTimeout now info InProgress = true := by
    simp [matchesStatusFilter, InProgress, Pending, h1]
  have hs2 : matchesStatusFilter lockTimeout now info "stale" = true := hs
  have hi2 : matchesStatusFilter lockTimeout now info "in-progress" = true := hi
  refine ⟨hs, hi, ?_, ?_⟩
  · simp [JobStatus, StatusFilterValidate, Stale, Pending, InProgress, Completed,
      Retrying, All, JobStatusCounters, hs2, lookupOr, setKey]
  · simp [JobStatus, StatusFilterValidate, Stale, Pending, InProgress, Completed,
      Retrying, All, JobStatusCounters, hi2, lookupOr, setKey]

/-- C1 (witness for the amended theorem). -/
theorem C1_witness :
    matchesStatusFilter 10 100
      { ID := "j2", TypeName := "u",
        Status := { InProgress := true, Completed := false, ModificationTime := 5,
                    ErrorCount := 0, Errors := [] },
        Time := { Created := 0, Start := 0, End := 0 },
        Retry := { Retryable := false, NeedsRetry := false, CurrentAttempt := 0 } }
      Stale = true ∧
    matchesStatusFilter 10 100
      { ID := "j2", TypeName := "u",
        Status := { InProgress := true, Completed := false, ModificationTime := 5,
                    ErrorCount := 0, Errors := [] },
        Time := { Created := 0, Start := 0, End := 0 },
        Retry := { Retryable := false, NeedsRetry := false, CurrentAttempt := 0 } }
      InProgress = true ∧
    JobStatus 10 100 Stale
      [{ ID := "j2", TypeName := "u",
         Status := { InProgress := true, Completed := false, ModificationTime := 5,
                     ErrorCount := 0, Errors := [] },
         Time := { Created := 0, Start := 0, End := 0 },
         Retry := { Retryable := false, NeedsRetry := false, CurrentAttempt := 0 } }] =
      .ok { Stats := [{ ID := "u", Count := 1 }], Filter := Stale } ∧
    JobStatus 10 100 InProgress
      [{ ID := "j2", TypeName := "u",
         Status := { InProgress := true, Completed := false, ModificationTime := 5,
                     ErrorCount := 0, Errors := [] },
         Time := { Created := 0, Start := 0, End := 0 },
         Retry := { Retryable := false, NeedsRetry := false, CurrentAttempt := 0 } }] =
      .ok { Stats := [{ ID := "u", Count := 1 }], Filter := InProgress } :=
  C1_stale_job_matches_stale_and_inprogress 10 100 _ (by decide) (by decide)

/-- C4: `Abort` on an ID not in the running-job table fails with the "not
defined" error, leaves the state untouched, and performs no queue call. -/
theorem C4_abort_missing_id (q : PoolQueue) (st : PoolState) (id : String)
    (h : st.jobs.contains id = false) :
    Abort q st id = (some ("job " ++ id ++ " is not defined"), st, []) := by
  unfold Abort
  rw [if_neg]
  simpa using h

/-- C4 (witness). -/
theorem C4_witness :
    Abort { found := fun _ => true, completeErr := fun _ => none }
        { jobs := ["a"], canceled := [] } "b" =
      (some ("job " ++ "b" ++ " is not defined"), { jobs := ["a"], canceled := [] }, []) :=
  C4_abort_missing_id _ _ _ (by decide)

/-- C5: `Abort` on an ID present in the running-job table cancels and
removes the entry before consulting the queue, so whatever the queue's
`Get`/`Complete` report (including failure), afterwards `IsRunning` is false
and the entry's cancellation handle has been invoked. -/
theorem C5_abort_always_clears_entry (q : PoolQueue) (st : PoolState) (id : String)
    (hnd : st.jobs.Nodup) (h : id ∈ st.jobs) :
    IsRunning (Abort q st id).2.1 id = false ∧ id ∈ (Abort q st id).2.1.canceled := by
  have hc : st.jobs.contains id = true := by
    simpa using h
  have hmem : id ∉ st.jobs.erase id := by
    rw [List.Nodup.mem_erase_iff hnd]
    simp
  unfold Abort
  rw [hc]
  by_cases hf : q.found id = true
  · rcases hce : q.completeErr id with _ | e <;>
      simp [hf, hce, IsRunning, hmem]
  · simp [hf, IsRunning, hmem]

/-- C5 (witness). -/
theorem C5_witness :
    IsRunning (Abort { found := fun _ => false, completeErr := fun _ => none }
        { jobs := ["a"], canceled := [] } "a").2.1 "a" = false ∧
    "a" ∈ (Abort { found := fun _ => false, completeErr := fun _ => none }
        { jobs := ["a"], canceled := [] } "a").2.1.canceled :=
  C5_abort_always_clears_entry _ _ _ (by decide) (by decide)

/-- C3 (counterexample): the running-job table holds one entry "a", the
queue's `Get` finds nothing, and the context is never cancelled; `AbortAll`
returns a nil aggregate error — refuting that the not-found failure is
aggregated into a non-nil returned error. -/
theorem C3_counterexample :
    ({ found := fun _ => false, completeErr := fun _ => none } : PoolQueue).found "a" = false ∧
    AbortAll { found := fun _ => false, completeErr := fun _ => none } none
        { jobs := ["a"], canceled := [] } =
      (none, { jobs := [], canceled := ["a"] }) := by
  exact ⟨rfl, rfl⟩

/-- C3 (amended): `AbortAll` silently skips table entries whose job the
queue's `Get` does not find — the not-found case contributes no error.
When the context is never cancelled and every `Complete` call that does
occur succeeds, `AbortAll` returns a nil error and empties the table, even
when some (or all) entries' jobs are absent from the queue. -/
theorem C3_abortall_skips_not_found (q : PoolQueue) (st : PoolState)
    (hc : ∀ id, q.completeErr id = none) :
    (AbortAll q none st).1 = none ∧ (AbortAll q none st).2.jobs = [] := by
  unfold AbortAll
  rw [abortAllLoop_no_complete_err q hc st.jobs]
  exact ⟨rfl, rfl⟩

/-- C3 (witness for the amended theorem). -/
theorem C3_witness :
    (AbortAll { found := fun _ => false, completeErr := fun _ => none } none
        { jobs := ["a", "b"], canceled := [] }).1 = none ∧
    (AbortAll { found := fun _ => false, completeErr := fun _ => none } none
        { jobs := ["a", "b"], canceled := [] }).2.jobs = [] :=
  C3_abortall_skips_not_found _ _ (fun _ => rfl)

/-- C6: the worker loop's deferred recovery block converts a panic into a
non-nil error, attaches it to the job and attempts completion when the job
is known, and always launches a replacement worker loop, so the live-loop
count returns to the pool's configured size N: the exiting loop's slot is
replaced one-for-one. -/
theorem C6_worker_pool_self_healing (recovered : Option String) (msg : String)
    (job : Option JobModel) (n : Nat) (hr : recovered = some msg) (hn : 1 ≤ n) :
    (workerDeferHandler recovered job).replacementSpawned = true ∧
    (∀ j, job = some j →
      (workerDeferHandler recovered job).jobErrors =
        j.errors ++ ["worker process encountered error: " ++ msg] ∧
      (workerDeferHandler recovered job).completeAttempted = true) ∧
    activeAfterWorkerExit n (workerDeferHandler recovered job) = n := by
  subst hr
  cases job with
  | none =>
    refine ⟨rfl, ?_, ?_⟩
    · intro j hj
      cases hj
    · simp [activeAfterWorkerExit, workerDeferHandler, HandlePanicWithError]
      omega
  | some j0 =>
    refine ⟨rfl, ?_, ?_⟩
    · intro j hj
      cases hj
      exact ⟨rfl, rfl⟩
    · simp [activeAfterWorkerExit, workerDeferHandler, HandlePanicWithError]
      omega

/-- C6 (witness). -/
theorem C6_witness :
    (workerDeferHandler (some "boom") (some { id := "j", errors := ["old"] })).replacementSpawned = true ∧
    (∀ j, (some { id := "j", errors := ["old"] } : Option JobModel) = some j →
      (workerDeferHandler (some "boom") (some { id := "j", errors := ["old"] })).jobErrors =
        j.errors ++ ["worker process encountered error: " ++ "boom"] ∧
      (workerDeferHandler (some "boom") (some { id := "j", errors := ["old"] })).completeAttempted = true) ∧
    activeAfterWorkerExit 3 (workerDeferHandler (some "boom")
      (some { id := "j", errors := ["old"] })) = 3 :=
  C6_worker_pool_self_healing _ "boom" _ 3 rfl (by decide)

/-- When no info satisfies the inclusion condition of a valid runtime
filter, the `RecentTiming` bucketing loop collects nothing and cannot
error. -/
lemma recentTimingCollect_no_match (now window : Int) (f : RuntimeFilter)
    (hv : RuntimeFilterValidate f = true) :
    ∀ (infos : List JobInfo) (acc : List (String × List Int)),
      (∀ info ∈ infos, timingIncluded now window f info = false) →
      RecentTimingCollect now window f infos acc = .ok acc := by
  intro infos
  induction infos with
  | nil => intro acc _; rfl
  | cons info rest ih =>
    intro acc h
    have hinfo := h info (by simp)
    have hrest : ∀ i ∈ rest, timingIncluded now window f i = false :=
      fun i hi => h i (by simp [hi])
    have hval : f = Duration ∨ f = Latency ∨ f = Running := by
      rcases Bool.or_eq_true_iff.mp hv with h1 | h2
      · rcases Bool.or_eq_true_iff.mp h1 with h3 | h4
        · exact Or.inl (by simpa using h3)
        · exact Or.inr (Or.inl (by simpa using h4))
      · exact Or.inr (Or.inr (by simpa using h2))
    rcases hval with hf | hf | hf <;> subst hf
    · have step : RecentTimingCollect now window Duration (info :: rest) acc =
          RecentTimingCollect now window Duration rest acc := by
        simp only [RecentTimingCollect]
        rw [if_neg (by decide : ¬ ((Duration : RuntimeFilter) = Running)),
            if_neg (by decide : ¬ ((Duration : RuntimeFilter) = Latency)),
            if_pos trivial]
        by_cases hcmp : info.Status.Completed = true
        · have hwin : now - info.Time.End > window := by
            by_contra hwin
            simp [timingIncluded, Duration, Latency, Running, hcmp, hwin] at hinfo
          rw [hcmp, if_neg (by decide : ¬ ((!true) = true)), if_pos hwin]
        · have hcf : info.Status.Completed = false := by
            cases hq : info.Status.Completed
            · rfl
            · exact absurd hq hcmp
          rw [hcf, if_pos (by decide : (!false) = true)]
      rw [step]
      exact ih acc hrest
    · have step : RecentTimingCollect now window Latency (info :: rest) acc =
          RecentTimingCollect now window Latency rest acc := by
        simp only [RecentTimingCollect]
        rw [if_neg (by decide : ¬ ((Latency : RuntimeFilter) = Running)),
            if_pos trivial]
        by_cases hcmp : info.Status.Completed = true
        · rw [hcmp, if_pos (rfl : true = true)]
        · have hcf : info.Status.Completed = false := by
            cases hq : info.Status.Completed
            · rfl
            · exact absurd hq hcmp
          have hwin : now - info.Time.Created > window := by
            by_contra hwin
            simp [timingIncluded, Duration, Latency, Running, hcf, hwin] at hinfo
          rw [hcf, if_neg (by decide : ¬ (false = true)), if_pos hwin]
      rw [step]
      exact ih acc hrest
    · have hip : info.Status.InProgress = false := by
        simpa [timingIncluded, Duration, Latency, Running] using hinfo
      have step : RecentTimingCollect now window Running (info :: rest) acc =
          RecentTimingCollect now window Running rest acc := by
        simp only [RecentTimingCollect]
        rw [if_pos trivial, hip, if_pos (by decide : (!false) = true)]
      rw [step]
      exact ih acc hrest

/-- C2 (counterexample): a 2-second window, the valid `Running` filter, and
an enumeration whose single info does not satisfy the inclusion condition
(it is not in-progress): `RecentTiming` returns a report with an empty
stats list and no error — refuting that it returns an error. -/
theorem C2_counterexample :
    RuntimeFilterValidate Running = true ∧
    timingIncluded 100 2000000000 Running
      { ID := "j1", TypeName := "t",
        Status := { InProgress := false, Completed := true, ModificationTime := 0,
                    ErrorCount := 0, Errors := [] },
        Time := { Created := 0, Start := 0, End := 0 },
        Retry := { Retryable := false, NeedsRetry := false, CurrentAttempt := 0 } } = false ∧
    RecentTiming 100 2000000000 Running
      [{ ID := "j1", TypeName := "t",
         Status := { InProgress := false, Completed := true, ModificationTime := 0,
                     ErrorCount := 0, Errors := [] },
         Time := { Created := 0, Start := 0, End := 0 },
         Retry := { Retryable := false, NeedsRetry := false, CurrentAttempt := 0 } }] =
      .ok { Filter := Running, Period := 2000000000, Stats := [] } :=
  ⟨rfl, rfl, rfl⟩

/-- C2 (amended): for every valid runtime filter and window greater than one
second, if no job-info entry from the enumeration matches the filter's
inclusion condition, `RecentTiming` returns a report with an empty per-type
stats list and no error (it does not fail). -/
theorem C2_recent_timing_no_match_ok (now window : Int) (f : RuntimeFilter)
    (infos : List JobInfo) (hv : RuntimeFilterValidate f = true)
    (hw : window > timeSecond)
    (h : ∀ info ∈ infos, timingIncluded now window f info = false) :
    RecentTiming now window f infos = .ok { Filter := f, Period := window, Stats := [] } := by
  unfold RecentTiming
  rw [recentTimingCollect_no_match now window f hv infos [] h]
  simp [hv, not_le.mpr hw]

/-- C2 (witness for the amended theorem). -/
theorem C2_witness :
    RecentTiming 100 2000000000 Latency
      [{ ID := "j1", TypeName := "t",
         Status := { InProgress := false, Completed := true, ModificationTime := 0,
                     ErrorCount := 0, Errors := [] },
         Time := { Created := 0, Start := 0, End := 0 },
         Retry := { Retryable := false, NeedsRetry := false, CurrentAttempt := 0 } }] =
      .ok { Filter := Latency, Period := 2000000000, Stats := [] } :=
  C2_recent_timing_no_match_ok 100 2000000000 Latency _ (by decide) (by decide)
    (by intro info hi; simp at hi; subst hi; decide)

/-- C9: for every window of at most one second and every filter value,
valid or invalid, `RecentTiming`, `RecentErrors`, and `RecentJobErrors`
each fail: an invalid filter hits the validation error, a valid one the
window-size error; in both cases no report is produced. -/
theorem C9_window_at_most_second_fails (now window : Int) (rf : RuntimeFilter)
    (ef : ErrorFilter) (jobType : String) (infos : List JobInfo)
    (hw : window ≤ timeSecond) :
    (∃ e, RecentTiming now window rf infos = .error e) ∧
    (∃ e, RecentErrors now window ef infos = .error e) ∧
    (∃ e, RecentJobErrors jobType now window ef infos = .error e) := by
  refine ⟨?_, ?_, ?_⟩
  · by_cases hv : RuntimeFilterValidate rf = true
    · exact ⟨"must specify windows greater than one second", by simp [RecentTiming, hv, hw]⟩
    · exact ⟨"invalid filter", by simp [RecentTiming, hv]⟩
  · by_cases hv : ErrorFilterValidate ef = true
    · exact ⟨"must specify windows greater than one second", by simp [RecentErrors, hv, hw]⟩
    · exact ⟨"invalid filter", by simp [RecentErrors, hv]⟩
  · by_cases hv : ErrorFilterValidate ef = true
    · exact ⟨"must specify windows greater than one second",
        by simp [RecentJobErrors, hv, hw]⟩
    · exact ⟨"invalid filter", by simp [RecentJobErrors, hv]⟩

/-- C9 (witness). -/
theorem C9_witness :
    (∃ e, RecentTiming 100 1000000000 Running [] = .error e) ∧
    (∃ e, RecentErrors 100 1000000000 AllErrors [] = .error e) ∧
    (∃ e, RecentJobErrors "t" 100 1000000000 AllErrors [] = .error e) :=
  C9_window_at_most_second_fails 100 1000000000 Running AllErrors "t" [] (by decide)

/-- C7: for every enumeration and window greater than one second,
`RecentErrors` under `UniqueErrors` returns rows whose error-message lists
hold no duplicate strings; under `StatsOnly` it returns rows whose
error-message lists are empty while each row's Count and Total are exactly
what `AllErrors` would report for the same type. -/
theorem C7_unique_and_stats_only (now window : Int) (infos : List JobInfo)
    (hw : window > timeSecond) :
    (∃ r, RecentErrors now window UniqueErrors infos = .ok r ∧
      ∀ row ∈ r.Data, row.Errors.Nodup) ∧
    (∃ rs ra, RecentErrors now window StatsOnly infos = .ok rs ∧
      RecentErrors now window AllErrors infos = .ok ra ∧
      (∀ row ∈ rs.Data, row.Errors = []) ∧
      rs.Data.map (fun row => (row.ID, row.Count, row.Total)) =
        ra.Data.map (fun row => (row.ID, row.Count, row.Total))) := by
  constructor
  · obtain ⟨c, hc, -⟩ :=
      recentErrorsCollect_ok_counts now window UniqueErrors rfl infos [] (by simp)
    have heq := recentErrors_ok_shape now window UniqueErrors infos rfl
      (not_le.mpr hw) c hc
    rw [if_pos rfl] at heq
    refine ⟨_, heq, ?_⟩
    intro row hrow
    obtain ⟨kv, hkv, rfl⟩ := List.mem_map.mp hrow
    obtain ⟨kv0, h0, rfl⟩ := List.mem_map.mp hkv
    exact List.nodup_dedup _
  · obtain ⟨ca, hca, -⟩ :=
      recentErrorsCollect_ok_counts now window AllErrors rfl infos [] (by simp)
    have hstats := recentErrorsCollect_statsOnly_strip now window infos []
    rw [show stripC [] = [] from rfl, hca] at hstats
    have hstats2 : RecentErrorsCollect now window StatsOnly infos [] = .ok (stripC ca) :=
      hstats
    have heqs := recentErrors_ok_shape now window StatsOnly infos rfl
      (not_le.mpr hw) (stripC ca) hstats2
    rw [if_neg (by decide : ¬ ((StatsOnly : ErrorFilter) = UniqueErrors))] at heqs
    have heqa := recentErrors_ok_shape now window AllErrors infos rfl
      (not_le.mpr hw) ca hca
    rw [if_neg (by decide : ¬ ((AllErrors : ErrorFilter) = UniqueErrors))] at heqa
    refine ⟨_, _, heqs, heqa, ?_, ?_⟩
    · intro row hrow
      obtain ⟨kv, hkv, rfl⟩ := List.mem_map.mp hrow
      obtain ⟨kv0, h0, rfl⟩ := List.mem_map.mp hkv
      rfl
    · simp only [finalizeErrorRows, stripC, List.map_map]
      rfl

/-- C7 (witness): two completed "build" jobs within the window sharing the
message "oops" plus one with "bad". -/
theorem C7_witness :
    (∃ r, RecentErrors 100 2000000000 UniqueErrors
        [{ ID := "j1", TypeName := "build",
           Status := { InProgress := false, Completed := true, ModificationTime := 0,
                       ErrorCount := 1, Errors := ["oops"] },
           Time := { Created := 0, Start := 0, End := 100 },
           Retry := { Retryable := false, NeedsRetry := false, CurrentAttempt := 0 } },
         { ID := "j2", TypeName := "build",
           Status := { InProgress := false, Completed := true, ModificationTime := 0,
                       ErrorCount := 2, Errors := ["oops", "bad"] },
           Time := { Created := 0, Start := 0, End := 100 },
           Retry := { Retryable := false, NeedsRetry := false, CurrentAttempt := 0 } }] =
        .ok r ∧ ∀ row ∈ r.Data, row.Errors.Nodup) ∧
    (∃ rs ra, RecentErrors 100 2000000000 StatsOnly
        [{ ID := "j1", TypeName := "build",
           Status := { InProgress := false, Completed := true, ModificationTime := 0,
                       ErrorCount := 1, Errors := ["oops"] },
           Time := { Created := 0, Start := 0, End := 100 },
           Retry := { Retryable := false, NeedsRetry := false, CurrentAttempt := 0 } },
         { ID := "j2", TypeName := "build",
           Status := { InProgress := false, Completed := true, ModificationTime := 0,
                       ErrorCount := 2, Errors := ["oops", "bad"] },
           Time := { Created := 0, Start := 0, End := 100 },
           Retry := { Retryable := false, NeedsRetry := false, CurrentAttempt := 0 } }] =
        .ok rs ∧
      RecentErrors 100 2000000000 AllErrors
        [{ ID := "j1", TypeName := "build",
           Status := { InProgress := false, Completed := true, ModificationTime := 0,
                       ErrorCount := 1, Errors := ["oops"] },
           Time := { Created := 0, Start := 0, End := 100 },
           Retry := { Retryable := false, NeedsRetry := false, CurrentAttempt := 0 } },
         { ID := "j2", TypeName := "build",
           Status := { InProgress := false, Completed := true, ModificationTime := 0,
                       ErrorCount := 2, Errors := ["oops", "bad"] },
           Time := { Created := 0, Start := 0, End := 100 },
           Retry := { Retryable := false, NeedsRetry := false, CurrentAttempt := 0 } }] =
        .ok ra ∧
      (∀ row ∈ rs.Data, row.Errors = []) ∧
      rs.Data.map (fun row => (row.ID, row.Count, row.Total)) =
        ra.Data.map (fun row => (row.ID, row.Count, row.Total))) :=
  C7_unique_and_stats_only 100 2000000000 _ (by decide)

/-- C8: every per-type row of a `RecentErrors` or `RecentJobErrors` report
has Count at least one and reports as Average exactly the truncating integer
division of Total by Count (the float64 widening in the source is
value-preserving): any fractional remainder is discarded, not rounded. -/
theorem C8_average_is_truncating_division (now window : Int) (f : ErrorFilter)
    (jobType : String) (infos : List JobInfo) :
    (∀ r, RecentErrors now window f infos = .ok r → ∀ row ∈ r.Data,
      1 ≤ row.Count ∧ row.Average = row.Total / row.Count ∧
      row.Average * row.Count ≤ row.Total ∧
      row.Total < row.Average * row.Count + row.Count) ∧
    (∀ r, RecentJobErrors jobType now window f infos = .ok r → ∀ row ∈ r.Data,
      1 ≤ row.Count ∧ row.Average = row.Total / row.Count ∧
      row.Average * row.Count ≤ row.Total ∧
      row.Total < row.Average * row.Count + row.Count) := by
  constructor
  · intro r h
    by_cases hv : ErrorFilterValidate f = true
    · by_cases hw : window ≤ timeSecond
      · exfalso
        simp [RecentErrors, hv, hw] at h
      · obtain ⟨c, hc, hP⟩ :=
          recentErrorsCollect_ok_counts now window f hv infos [] (by simp)
        have heq := recentErrors_ok_shape now window f infos hv hw c hc
        rw [heq] at h
        have hr := Except.ok.inj h
        have hP2 : ∀ kv ∈ (if f = UniqueErrors then dedupErrors c else c),
            1 ≤ kv.2.Count := by
          by_cases hu : f = UniqueErrors
          · rw [if_pos hu]
            exact dedupErrors_counts c hP
          · rw [if_neg hu]
            exact hP
        intro row hrow
        rw [← hr] at hrow
        exact finalizeErrorRows_avg _ hP2 row hrow
    · exfalso
      simp [RecentErrors, hv] at h
  · intro r h
    by_cases hv : ErrorFilterValidate f = true
    · by_cases hw : window ≤ timeSecond
      · exfalso
        simp [RecentJobErrors, hv, hw] at h
      · obtain ⟨c, hc, hP⟩ :=
          recentJobErrorsCollect_ok_counts jobType now window f hv infos [] (by simp)
        have heq := recentJobErrors_ok_shape jobType now window f infos hv hw c hc
        rw [heq] at h
        have hr := Except.ok.inj h
        have hP2 : ∀ kv ∈ (if f = UniqueErrors then dedupErrors c else c),
            1 ≤ kv.2.Count := by
          by_cases hu : f = UniqueErrors
          · rw [if_pos hu]
            exact dedupErrors_counts c hP
          · rw [if_neg hu]
            exact hP
        intro row hrow
        rw [← hr] at hrow
        exact finalizeErrorRows_avg _ hP2 row hrow
    · exfalso
      simp [RecentJobErrors, hv] at h

/-- C8 (witness): one type with two qualifying jobs and three errors in
total; the reported average is 3 / 2 = 1, remainder discarded. -/
theorem C8_witness :
    1 ≤ (2 : Nat) ∧ (1 : Nat) = 3 / 2 ∧ (1 : Nat) * 2 ≤ 3 ∧ (3 : Nat) < 1 * 2 + 2 := by
  have happ := (C8_average_is_truncating_division 100 2000000000 AllErrors "build"
    [{ ID := "j1", TypeName := "build",
       Status := { InProgress := false, Completed := true, ModificationTime := 0,
                   ErrorCount := 1, Errors := ["oops"] },
       Time := { Created := 0, Start := 0, End := 100 },
       Retry := { Retryable := false, NeedsRetry := false, CurrentAttempt := 0 } },
     { ID := "j2", TypeName := "build",
       Status := { InProgress := false, Completed := true, ModificationTime := 0,
                   ErrorCount := 2, Errors := ["oops", "bad"] },
       Time := { Created := 0, Start := 0, End := 100 },
       Retry := { Retryable := false, NeedsRetry := false, CurrentAttempt := 0 } }]).1
    { Period := 2000000000, FilteredByType := false,
      Data := [{ ID := "build", Count := 2, Total := 3, Average := 1,
                 Errors := ["oops", "oops", "bad"] }] }
    (by rfl)
    { ID := "build", Count := 2, Total := 3, Average := 1,
      Errors := ["oops", "oops", "bad"] }
    (by simp)
  exact happ

/-- C10: with a valid status filter, `CompleteJobsByPattern` on a pattern
the regex compiler rejects fails immediately with the invalid-pattern error,
completing nothing and never reaching the queue's enumeration; on a pattern
that compiles, when resolution and completion always succeed, it completes
exactly the jobs whose logical ID matches the compiled regex and whose info
satisfies the status filter, and returns no error. -/
theorem C10_complete_jobs_by_pattern (q : ManagerQueue)
    (compile : String → Option (String → Bool)) (lockTimeout now : Int)
    (f : StatusFilter) (pattern : String) (infos : List JobInfo)
    (hf : StatusFilterValidate f = true) :
    (compile pattern = none →
      CompleteJobsByPattern q compile lockTimeout now f pattern infos =
        (some ["invalid regexp"], [], false)) ∧
    (∀ rx, compile pattern = some rx →
      (∀ info ∈ infos, getJob q info = .ok { id := info.ID }) →
      (∀ j, completeJob q j = none) →
      CompleteJobsByPattern q compile lockTimeout now f pattern infos =
        (none,
         (infos.filter
           (fun i => rx i.ID && matchesStatusFilter lockTimeout now i f)).map JobInfo.ID,
         true)) := by
  constructor
  · intro hnone
    unfold CompleteJobsByPattern
    rw [if_neg (by simp [hf]), hnone]
  · intro rx hrx hget hcomp
    have hloop := completeByPatternLoop_all_ok q rx lockTimeout now f infos hget hcomp
    unfold CompleteJobsByPattern
    rw [if_neg (by simp [hf])]
    simp [hrx, hloop]

/-- C10 (witness): the spec's concrete scenario — jobs "build-1", "build-2",
"test-1" under filter `All`; the pattern "[" fails to compile and completes
nothing, "^build-" completes exactly the two build jobs with no error. -/
theorem C10_witness :
    CompleteJobsByPattern
      { get := fun id => some { id := id }, retryCapable := false,
        getAttempt := fun _ _ => .error "no attempt", completeErr := fun _ => none,
        completeRetryingErr := fun _ => none }
      (fun p => if p = "[" then none
        else if p = "^build-" then some (fun s => "build-".data.isPrefixOf s.data) else none)
      10 100 All "["
      [{ ID := "build-1", TypeName := "t",
         Status := { InProgress := false, Completed := false, ModificationTime := 0,
                     ErrorCount := 0, Errors := [] },
         Time := { Created := 0, Start := 0, End := 0 },
         Retry := { Retryable := false, NeedsRetry := false, CurrentAttempt := 0 } },
       { ID := "build-2", TypeName := "t",
         Status := { InProgress := false, Completed := false, ModificationTime := 0,
                     ErrorCount := 0, Errors := [] },
         Time := { Created := 0, Start := 0, End := 0 },
         Retry := { Retryable := false, NeedsRetry := false, CurrentAttempt := 0 } },
       { ID := "test-1", TypeName := "t",
         Status := { InProgress := false, Completed := false, ModificationTime := 0,
                     ErrorCount := 0, Errors := [] },
         Time := { Created := 0, Start := 0, End := 0 },
         Retry := { Retryable := false, NeedsRetry := false, CurrentAttempt := 0 } }] =
      (some ["invalid regexp"], [], false) ∧
    CompleteJobsByPattern
      { get := fun id => some { id := id }, retryCapable := false,
        getAttempt := fun _ _ => .error "no attempt", completeErr := fun _ => none,
        completeRetryingErr := fun _ => none }
      (fun p => if p = "[" then none
        else if p = "^build-" then some (fun s => "build-".data.isPrefixOf s.data) else none)
      10 100 All "^build-"
      [{ ID := "build-1", TypeName := "t",
         Status := { InProgress := false, Completed := false, ModificationTime := 0,
                     ErrorCount := 0, Errors := [] },
         Time := { Created := 0, Start := 0, End := 0 },
         Retry := { Retryable := false, NeedsRetry := false, CurrentAttempt := 0 } },
       { ID := "build-2", TypeName := "t",
         Status := { InProgress := false, Completed := false, ModificationTime := 0,
                     ErrorCount := 0, Errors := [] },
         Time := { Created := 0, Start := 0, End := 0 },
         Retry := { Retryable := false, NeedsRetry := false, CurrentAttempt := 0 } },
       { ID := "test-1", TypeName := "t",
         Status := { InProgress := false, Completed := false, ModificationTime := 0,
                     ErrorCount := 0, Errors := [] },
         Time := { Created := 0, Start := 0, End := 0 },
         Retry := { Retryable := false, NeedsRetry := false, CurrentAttempt := 0 } }] =
      (none, ["build-1", "build-2"], true) := by
  constructor
  · exact (C10_complete_jobs_by_pattern
      { get := fun id => some { id := id }, retryCapable := false,
        getAttempt := fun _ _ => .error "no attempt", completeErr := fun _ => none,
        completeRetryingErr := fun _ => none }
      (fun p => if p = "[" then none
        else if p = "^build-" then some (fun s => "build-".data.isPrefixOf s.data) else none)
      10 100 All "["
      [{ ID := "build-1", TypeName := "t",
         Status := { InProgress := false, Completed := false, ModificationTime := 0,
                     ErrorCount := 0, Errors := [] },
         Time := { Created := 0, Start := 0, End := 0 },
         Retry := { Retryable := false, NeedsRetry := false, CurrentAttempt := 0 } },
       { ID := "build-2", TypeName := "t",
         Status := { InProgress := false, Completed := false, ModificationTime := 0,
                     ErrorCount := 0, Errors := [] },
         Time := { Created := 0, Start := 0, End := 0 },
         Retry := { Retryable := false, NeedsRetry := false, CurrentAttempt := 0 } },
       { ID := "test-1", TypeName := "t",
         Status := { InProgress := false, Completed := false, ModificationTime := 0,
                     ErrorCount := 0, Errors := [] },
         Time := { Created := 0, Start := 0, End := 0 },
         Retry := { Retryable := false, NeedsRetry := false, CurrentAttempt := 0 } }]
      (by decide)).1 rfl
  · rw [(C10_complete_jobs_by_pattern
      { get := fun id => some { id := id }, retryCapable := false,
        getAttempt := fun _ _ => .error "no attempt", completeErr := fun _ => none,
        completeRetryingErr := fun _ => none }
      (fun p => if p = "[" then none
        else if p = "^build-" then some (fun s => "build-".data.isPrefixOf s.data) else none)
      10 100 All "^build-"
      [{ ID := "build-1", TypeName := "t",
         Status := { InProgress := false, Completed := false, ModificationTime := 0,
                     ErrorCount := 0, Errors := [] },
         Time := { Created := 0, Start := 0, End := 0 },
         Retry := { Retryable := false, NeedsRetry := false, CurrentAttempt := 0 } },
       { ID := "build-2", TypeName := "t",
         Status := { InProgress := false, Completed := false, ModificationTime := 0,
                     ErrorCount := 0, Errors := [] },
         Time := { Created := 0, Start := 0, End := 0 },
         Retry := { Retryable := false, NeedsRetry := false, CurrentAttempt := 0 } },
       { ID := "test-1", TypeName := "t",
         Status := { InProgress := false, Completed := false, ModificationTime := 0,
                     ErrorCount := 0, Errors := [] },
         Time := { Created := 0, Start := 0, End := 0 },
         Retry := { Retryable := false, NeedsRetry := false, CurrentAttempt := 0 } }]
      (by decide)).2
      (fun s => "build-".data.isPrefixOf s.data) rfl
      (by
        intro info hi
        simp at hi
        rcases hi with rfl | rfl | rfl <;> rfl)
      (fun j => rfl)]
    decide

end Claims
